import Mathlib

/-!
Verification of the `constellation` event telemetry core
(`src/core/observability.ts`) against its natural-language specification.

The TypeScript source is shallowly embedded: pure computations become Lean
functions, the SQLite-backed store becomes explicit state passing over a list
of rows, `Date.now()` / `randomBytes` / `process.env` / the file system become
explicit parameters, and fallible operations return `Except`.  JavaScript
numbers only ever hold integral millisecond timestamps, counts and durations
here, so they are modelled as `Nat`/`Int`.  JavaScript string comparison is
code-unit lexicographic order, which for the ASCII data of this program
coincides with `Char` codepoint lexicographic order.
-/

namespace Constellation

/-- JS `String.prototype.toUpperCase` on a single character, for the ASCII
range used by the program: `a`–`z` maps to `A`–`Z`, all else unchanged. -/
def charToUpper (c : Char) : Char :=
  if 'a' ≤ c ∧ c ≤ 'z' then Char.ofNat (c.toNat - 32) else c

/-- Digit alphabet of JS `Number.prototype.toString(36)`: `0`–`9` then
`a`–`z` (lowercase). -/
def base36Digit (d : Nat) : Char :=
  if d < 10 then Char.ofNat (48 + d) else Char.ofNat (87 + d)

/-- Fuel-driven digit loop of `Number.prototype.toString(36)`, most
significant digit first.  Structural in the fuel so that it evaluates inside
the kernel. -/
def jsToString36Aux : Nat → Nat → List Char → List Char
  | 0, _, acc => acc
  | fuel + 1, n, acc =>
    if n < 36 then base36Digit n :: acc
    else jsToString36Aux fuel (n / 36) (base36Digit (n % 36) :: acc)

/-- JS `n.toString(36)` for a natural number `n`: its minimal-length base-36
representation, lowercase, most significant digit first. -/
def jsToString36 (n : Nat) : List Char := jsToString36Aux (n + 1) n []

/-- JS `String.prototype.padStart(w, c)`: left-pad to width `w` with `c`;
a string already at least `w` long is returned unchanged. -/
def padStartList (w : Nat) (c : Char) (l : List Char) : List Char :=
  List.replicate (w - l.length) c ++ l

/-- `generateULID` (observability.ts lines 117–122):
`` `${now.toString(36)}${random}`.toUpperCase().padStart(26, "0") ``.
`now` models `Date.now()` (milliseconds); `random` models
`randomBytes(8).toString("hex").substring(0, 12)`, a 12-character
lowercase-hex string drawn fresh on every call. -/
def generateULID (now : Nat) (random : List Char) : String :=
  ⟨padStartList 26 '0' (List.map charToUpper (jsToString36 now ++ random))⟩

/-- Reference recursion for `jsToString36`, convenient for proofs: minimal
base-36 digits, most significant first. -/
def rep36 (n : Nat) : List Char :=
  if _h : n < 36 then [base36Digit n]
  else rep36 (n / 36) ++ [base36Digit (n % 36)]
decreasing_by exact Nat.div_lt_self (by omega) (by omega)

/-- Fixed-width (`w` digits) base-36 representation, already uppercased,
most significant digit first. -/
def paddedBase36 : Nat → Nat → List Char
  | 0, _ => []
  | w + 1, n => charToUpper (base36Digit (n / 36 ^ w)) :: paddedBase36 w (n % 36 ^ w)

theorem jsToString36Aux_eq (fuel : Nat) :
    ∀ n acc, n < 36 ^ (fuel + 1) → jsToString36Aux (fuel + 1) n acc = rep36 n ++ acc := by
  induction fuel with
  | zero =>
    intro n acc h
    have h36 : n < 36 := by simpa using h
    rw [jsToString36Aux, rep36]
    simp [h36]
  | succ fuel ih =>
    intro n acc h
    rw [jsToString36Aux]
    by_cases h36 : n < 36
    · rw [rep36]; simp [h36]
    · have hdiv : n / 36 < 36 ^ (fuel + 1) := by
        rw [Nat.div_lt_iff_lt_mul (by omega)]
        calc n < 36 ^ (fuel + 1 + 1) := h
        _ = 36 ^ (fuel + 1) * 36 := by ring
      rw [if_neg h36, ih (n / 36) _ hdiv]
      conv_rhs => rw [rep36]
      rw [dif_neg h36]
      simp

theorem jsToString36_eq_rep36 (n : Nat) : jsToString36 n = rep36 n := by
  have h : n < 36 ^ (n + 1) := by
    calc n < 36 ^ n := Nat.lt_pow_self (by omega) n
    _ ≤ 36 ^ (n + 1) := Nat.pow_le_pow_right (by omega) (Nat.le_succ n)
  simpa using jsToString36Aux_eq n n [] h

theorem rep36_length_le (w : Nat) : ∀ n, n < 36 ^ (w + 1) → (rep36 n).length ≤ w + 1 := by
  induction w with
  | zero =>
    intro n h
    have h36 : n < 36 := by simpa using h
    rw [rep36]
    simp [h36]
  | succ w ih =>
    intro n h
    by_cases h36 : n < 36
    · rw [rep36]; simp [h36]
    · rw [rep36, dif_neg h36]
      have hdiv : n / 36 < 36 ^ (w + 1) := by
        rw [Nat.div_lt_iff_lt_mul (by omega)]
        calc n < 36 ^ (w + 1 + 1) := h
        _ = 36 ^ (w + 1) * 36 := by ring
      have := ih (n / 36) hdiv
      simp only [List.length_append, List.length_cons, List.length_nil]
      omega

theorem rep36_length_eq (w : Nat) :
    ∀ n, 36 ^ w ≤ n → n < 36 ^ (w + 1) → (rep36 n).length = w + 1 := by
  induction w with
  | zero =>
    intro n h1 h2
    have h36 : n < 36 := by simpa using h2
    rw [rep36]
    simp [h36]
  | succ w ih =>
    intro n h1 h2
    have h36 : ¬ n < 36 := by
      have : (36 : Nat) ≤ 36 ^ (w + 1) := by
        calc (36 : Nat) = 36 ^ 1 := (pow_one 36).symm
        _ ≤ 36 ^ (w + 1) := Nat.pow_le_pow_right (by omega) (by omega)
      omega
    rw [rep36, dif_neg h36]
    have hlo : 36 ^ w ≤ n / 36 := by
      rw [Nat.le_div_iff_mul_le (by omega)]
      calc 36 ^ w * 36 = 36 ^ (w + 1) := by ring
      _ ≤ n := h1
    have hhi : n / 36 < 36 ^ (w + 1) := by
      rw [Nat.div_lt_iff_lt_mul (by omega)]
      calc n < 36 ^ (w + 1 + 1) := h2
      _ = 36 ^ (w + 1) * 36 := by ring
    have := ih (n / 36) hlo hhi
    simp only [List.length_append, List.length_cons, List.length_nil]
    omega

theorem paddedBase36_length (w : Nat) : ∀ n, (paddedBase36 w n).length = w := by
  induction w with
  | zero => intro n; rfl
  | succ w ih => intro n; simp [paddedBase36, ih]

theorem paddedBase36_peel (w : Nat) :
    ∀ n, n < 36 ^ (w + 1) →
      paddedBase36 (w + 1) n = paddedBase36 w (n / 36) ++ [charToUpper (base36Digit (n % 36))] := by
  induction w with
  | zero =>
    intro n h
    have h36 : n < 36 := by simpa using h
    simp [paddedBase36, Nat.mod_eq_of_lt h36]
  | succ w ih =>
    intro n h
    have hm : n % 36 ^ (w + 1) < 36 ^ (w + 1) := Nat.mod_lt _ (by positivity)
    have e1 : n % 36 ^ (w + 1) % 36 = n % 36 :=
      Nat.mod_mod_of_dvd n (dvd_pow_self 36 (Nat.succ_ne_zero w))
    have e2 : n % 36 ^ (w + 1) / 36 = n / 36 % 36 ^ w := by
      have : (36 : Nat) ^ (w + 1) = 36 * 36 ^ w := by ring
      rw [this, Nat.mod_mul_right_div_self]
    have e3 : n / 36 / 36 ^ w = n / 36 ^ (w + 1) := by
      rw [Nat.div_div_eq_div_mul]
      congr 1
      ring
    calc paddedBase36 (w + 1 + 1) n
        = charToUpper (base36Digit (n / 36 ^ (w + 1))) ::
            paddedBase36 (w + 1) (n % 36 ^ (w + 1)) := rfl
    _ = charToUpper (base36Digit (n / 36 ^ (w + 1))) ::
          (paddedBase36 w (n % 36 ^ (w + 1) / 36) ++
            [charToUpper (base36Digit (n % 36 ^ (w + 1) % 36))]) := by
        rw [ih _ hm]
    _ = charToUpper (base36Digit (n / 36 / 36 ^ w)) ::
          (paddedBase36 w (n / 36 % 36 ^ w) ++ [charToUpper (base36Digit (n % 36))]) := by
        rw [e1, e2, e3]
    _ = paddedBase36 (w + 1) (n / 36) ++ [charToUpper (base36Digit (n % 36))] := rfl

theorem charToUpper_base36Digit_zero : charToUpper (base36Digit 0) = '0' := by decide

theorem rep36_bridge (w : Nat) :
    ∀ n, n < 36 ^ (w + 1) →
      paddedBase36 (w + 1) n =
        List.replicate (w + 1 - (rep36 n).length) '0' ++ List.map charToUpper (rep36 n) := by
  induction w with
  | zero =>
    intro n h
    have h36 : n < 36 := by simpa using h
    rw [rep36]
    simp [paddedBase36, h36, Nat.mod_eq_of_lt h36]
  | succ w ih =>
    intro n h
    by_cases hlo : n < 36 ^ (w + 1)
    · have hd0 : n / 36 ^ (w + 1) = 0 := Nat.div_eq_of_lt hlo
      have hlen : (rep36 n).length ≤ w + 1 := rep36_length_le w n hlo
      have step : paddedBase36 (w + 1 + 1) n = '0' :: paddedBase36 (w + 1) n := by
        show charToUpper (base36Digit (n / 36 ^ (w + 1))) ::
            paddedBase36 (w + 1) (n % 36 ^ (w + 1)) = _
        rw [hd0, charToUpper_base36Digit_zero, Nat.mod_eq_of_lt hlo]
      rw [step, ih n hlo]
      have hrep : w + 1 + 1 - (rep36 n).length = (w + 1 - (rep36 n).length) + 1 := by omega
      rw [hrep, List.replicate_succ]
      simp
    · have hge : 36 ^ (w + 1) ≤ n := le_of_not_lt hlo
      have hlen : (rep36 n).length = w + 1 + 1 := rep36_length_eq (w + 1) n hge h
      have h36 : ¬ n < 36 := by
        have : (36 : Nat) ≤ 36 ^ (w + 1) := by
          calc (36 : Nat) = 36 ^ 1 := (pow_one 36).symm
          _ ≤ 36 ^ (w + 1) := Nat.pow_le_pow_right (by omega) (by omega)
        omega
      have hdlo : 36 ^ w ≤ n / 36 := by
        rw [Nat.le_div_iff_mul_le (by omega)]
        calc 36 ^ w * 36 = 36 ^ (w + 1) := by ring
        _ ≤ n := hge
      have hdhi : n / 36 < 36 ^ (w + 1) := by
        rw [Nat.div_lt_iff_lt_mul (by omega)]
        calc n < 36 ^ (w + 1 + 1) := h
        _ = 36 ^ (w + 1) * 36 := by ring
      have hdlen : (rep36 (n / 36)).length = w + 1 := rep36_length_eq w (n / 36) hdlo hdhi
      rw [hlen]
      simp only [Nat.sub_self, List.replicate_zero, List.nil_append]
      conv_rhs => rw [rep36]
      rw [dif_neg h36, List.map_append, paddedBase36_peel (w + 1) n h, ih (n / 36) hdhi, hdlen]
      simp

theorem base36Digit_upper_lt :
    ∀ d2, d2 < 36 → ∀ d1, d1 < d2 →
      charToUpper (base36Digit d1) < charToUpper (base36Digit d2) := by decide

theorem paddedBase36_lex (w : Nat) :
    ∀ n1 n2, n1 < n2 → n2 < 36 ^ w →
      List.Lex (· < ·) (paddedBase36 w n1) (paddedBase36 w n2) := by
  induction w with
  | zero =>
    intro n1 n2 h12 h2
    simp only [pow_zero] at h2
    omega
  | succ w ih =>
    intro n1 n2 h12 h2
    have hd : n1 / 36 ^ w ≤ n2 / 36 ^ w := Nat.div_le_div_right (le_of_lt h12)
    rcases lt_or_eq_of_le hd with hlt | heq
    · apply List.Lex.rel
      apply base36Digit_upper_lt _ _ _ hlt
      rw [Nat.div_lt_iff_lt_mul (by positivity)]
      have hp : (36 : Nat) ^ (w + 1) = 36 ^ w * 36 := by ring
      omega
    · show List.Lex (· < ·)
        (charToUpper (base36Digit (n1 / 36 ^ w)) :: paddedBase36 w (n1 % 36 ^ w))
        (charToUpper (base36Digit (n2 / 36 ^ w)) :: paddedBase36 w (n2 % 36 ^ w))
      rw [heq]
      apply List.Lex.cons
      apply ih
      · have e1 := Nat.div_add_mod n1 (36 ^ w)
        have e2 := Nat.div_add_mod n2 (36 ^ w)
        rw [heq] at e1
        omega
      · exact Nat.mod_lt _ (by positivity)

theorem lex_append {l1 l2 : List Char} (s1 s2 : List Char)
    (hlen : l1.length = l2.length) (h : List.Lex (· < ·) l1 l2) :
    List.Lex (· < ·) (l1 ++ s1) (l2 ++ s2) := by
  induction h with
  | nil => simp at hlen
  | rel hr => exact List.Lex.rel hr
  | cons _ ih =>
    apply List.Lex.cons
    apply ih
    simpa using hlen

theorem generateULID_layout (t : Nat) (r : List Char) (ht : t < 36 ^ 14) (hr : r.length = 12) :
    (generateULID t r).toList = paddedBase36 14 t ++ List.map charToUpper r := by
  show padStartList 26 '0' (List.map charToUpper (jsToString36 t ++ r)) = _
  rw [jsToString36_eq_rep36, padStartList, List.map_append]
  have hlen : (rep36 t).length ≤ 14 := rep36_length_le 13 t ht
  have hsub : 26 - (List.map charToUpper (rep36 t) ++ List.map charToUpper r).length
      = 14 - (rep36 t).length := by
    simp only [List.length_append, List.length_map, hr]
    omega
  rw [hsub, rep36_bridge 13 t ht]
  simp

/-- C1 (counterexample): the claim that identifiers from `generateULID` are
strictly increasing in call order even within one timestamp tick is false.
Two calls in the same millisecond `1700000000000` where the first call draws
the random hex suffix `ffffffffffff` and the second draws `000000000000`
yield a second identifier that is not greater than the first: the generator
keeps no in-process state and the tie is decided by randomness alone. -/
theorem generateULID_same_tick_not_increasing :
    ¬ generateULID 1700000000000 ['f', 'f', 'f', 'f', 'f', 'f', 'f', 'f', 'f', 'f', 'f', 'f'] <
      generateULID 1700000000000 ['0', '0', '0', '0', '0', '0', '0', '0', '0', '0', '0', '0'] := by
  simp only [String.lt_iff_toList_lt]
  decide

/-- C1 (amended): identifiers from `generateULID` are strictly increasing in
call order whenever the timestamp ticks of the calls strictly increase (with
the timestamp below `36 ^ 14`, which covers every reachable `Date.now()`
value, and 12-character random suffixes); within a shared tick the order is
left to the random suffix and is not guaranteed. -/
theorem generateULID_lt_of_tick_lt (t1 t2 : Nat) (r1 r2 : List Char)
    (h12 : t1 < t2) (h2 : t2 < 36 ^ 14) (hr1 : r1.length = 12) (hr2 : r2.length = 12) :
    generateULID t1 r1 < generateULID t2 r2 := by
  rw [String.lt_iff_toList_lt, generateULID_layout t1 r1 (lt_trans h12 h2) hr1,
    generateULID_layout t2 r2 h2 hr2]
  exact lex_append _ _ (by rw [paddedBase36_length, paddedBase36_length])
    (paddedBase36_lex 14 t1 t2 h12 h2)

/-- C1 witness: the amended monotonicity theorem applied at the concrete
ticks 1700000000000 < 1700000000001 with concrete random suffixes. -/
theorem generateULID_lt_of_tick_lt_witness :
    generateULID 1700000000000 ['f', 'f', 'f', 'f', 'f', 'f', 'f', 'f', 'f', 'f', 'f', 'f'] <
      generateULID 1700000000001 ['0', '0', '0', '0', '0', '0', '0', '0', '0', '0', '0', '0'] :=
  generateULID_lt_of_tick_lt 1700000000000 1700000000001 _ _
    (by decide) (by decide) (by decide) (by decide)

mutual

/-- A JavaScript value as it can appear in an event's `data` record
(`Record<string, unknown>`): `undef` is JavaScript `undefined`, which is a
first-class member value of a record but is not JSON-representable.
JavaScript numbers only carry integral counts and durations here. -/
inductive JsVal where
  | undef : JsVal
  | null : JsVal
  | bool (b : Bool) : JsVal
  | num (n : Int) : JsVal
  | str (s : String) : JsVal
  | arr (elems : JsArr) : JsVal
  | obj (fields : JsObj) : JsVal

/-- A JavaScript array of `JsVal`s (a specialised list, mutual with `JsVal`
so that all recursion over values stays structural). -/
inductive JsArr where
  | nil : JsArr
  | cons (v : JsVal) (rest : JsArr) : JsArr

/-- A JavaScript object: insertion-ordered `(key, value)` fields. -/
inductive JsObj where
  | nil : JsObj
  | cons (k : String) (v : JsVal) (rest : JsObj) : JsObj

end

/-- Whether a value is JavaScript `undefined`. -/
def JsVal.isUndef : JsVal → Bool
  | .undef => true
  | _ => false

/-- Concatenation of the field lists of two JavaScript objects; used to model
the source's sequential `data.x = …` key assignments after an object
literal, which append new keys in order. -/
def JsObj.append : JsObj → JsObj → JsObj
  | .nil, b => b
  | .cons k v rest, b => .cons k v (rest.append b)

mutual

/-- Model of `JSON.parse(JSON.stringify(v))`, the composite the store applies
to a `data` payload: it is written with `JSON.stringify(event.data)`
(observability.ts line 151) and read back with `JSON.parse(row.data)` (line
676).  Per the ECMA JSON semantics, object fields whose value is `undefined`
are dropped, and `undefined` array elements become `null`; everything
JSON-representable round-trips unchanged. -/
def jsonSerialize : JsVal → JsVal
  | .undef => .null
  | .null => .null
  | .bool b => .bool b
  | .num n => .num n
  | .str s => .str s
  | .arr xs => .arr (jsonSerializeArr xs)
  | .obj fs => .obj (jsonSerializeObj fs)

/-- `jsonSerialize` on each element of an array (`undefined` becomes `null`). -/
def jsonSerializeArr : JsArr → JsArr
  | .nil => .nil
  | .cons v rest => .cons (jsonSerialize v) (jsonSerializeArr rest)

/-- `jsonSerialize` on an object's fields: fields whose value is `undefined`
are dropped. -/
def jsonSerializeObj : JsObj → JsObj
  | .nil => .nil
  | .cons k v rest =>
    if v.isUndef then jsonSerializeObj rest
    else .cons k (jsonSerialize v) (jsonSerializeObj rest)

end

/-- The keys of a JavaScript object, in order. -/
def JsObj.keys : JsObj → List String
  | .nil => []
  | .cons k _ rest => k :: rest.keys

/-- First value stored under key `k` (the writers never repeat a key). -/
def JsObj.lookup : JsObj → String → Option JsVal
  | .nil, _ => none
  | .cons k v rest, k' => if k == k' then some v else rest.lookup k'

/-- An optional string argument as the JavaScript value a writer places in a
`data` record: an omitted option is the value `undefined`. -/
def optStr : Option String → JsVal
  | none => .undef
  | some s => .str s

/-- JS `Array.prototype.join(",")` on a list of strings. -/
def joinComma : List String → String
  | [] => ""
  | [s] => s
  | s :: rest => s ++ "," ++ joinComma rest

/-- Loop of JS `String.prototype.split(",")`: cuts at every comma; `cur`
holds the characters of the current piece in reverse. -/
def splitCommaAux : List Char → List Char → List String
  | [], cur => [⟨cur.reverse⟩]
  | c :: rest, cur =>
    if c == ',' then ⟨cur.reverse⟩ :: splitCommaAux rest []
    else splitCommaAux rest (c :: cur)

/-- JS `s.split(",")`. -/
def splitComma (s : String) : List String := splitCommaAux s.data []

/-- `OmniEvent.machine` (observability.ts lines 11–14). -/
structure Machine where
  id : String
  hostname : Option String := none

/-- `OmniEvent.context` (lines 15–19). -/
structure Context where
  session_id : Option String := none
  actor : Option String := none
  phase : Option String := none

/-- `OmniEvent.event` (lines 20–23): kind plus optional tags list. -/
structure EventMeta where
  kind : String
  tags : Option (List String) := none

/-- `OmniEvent.source` (lines 24–27). -/
structure SourceInfo where
  component : String
  version : Option String := none

/-- `OmniEvent.parent` (lines 29–33): causal links. -/
structure Parent where
  event_id : Option String := none
  trace_id : Option String := none
  span_id : Option String := none

/-- The `OmniEvent` envelope interface (lines 7–34).  Optional JS fields are
`Option`s; `data` is the kind-specific payload record. -/
structure OmniEvent where
  schema_version : String
  ts : String
  event_id : String
  machine : Machine
  context : Context
  event : EventMeta
  source : SourceInfo
  data : JsVal
  parent : Parent

/-- One row of the `events` table (schema at lines 86–106).  `event_tags` is
the flattened comma-joined TEXT column (NULL ↔ `none`); `data` is the TEXT
column holding `JSON.stringify(event.data)`, modelled as the parsed JSON
value it deserialises back to. -/
structure Row where
  schema_version : String
  ts : String
  event_id : String
  machine_id : String
  machine_hostname : Option String
  context_session_id : Option String
  context_actor : Option String
  context_phase : Option String
  event_kind : String
  event_tags : Option String
  source_component : String
  source_version : Option String
  data : JsVal
  parent_event_id : Option String
  parent_trace_id : Option String
  parent_span_id : Option String

/-- `QueryFilters` (lines 36–44).  All fields are optional; `limit`/`offset`
are the JS numbers used for pagination, integral and non-negative in every
use, hence `Nat`. -/
structure QueryFilters where
  kind : Option String := none
  session_id : Option String := none
  machine_id : Option String := none
  start_ts : Option String := none
  end_ts : Option String := none
  limit : Option Nat := none
  offset : Option Nat := none

/-- The `options` argument shared by `createBaseEvent` and `writeEvent`
(lines 161–170 and 204–213); `component` is optional at the `writeEvent`
level and defaulted there. -/
structure WriteOptions where
  sessionId : Option String := none
  actor : Option String := none
  phase : Option String := none
  component : Option String := none
  tags : Option (List String) := none
  parentEventId : Option String := none
  parentTraceId : Option String := none
  parentSpanId : Option String := none

/-- `createBaseEvent` (lines 158–198): assembles the canonical envelope.
`component` is the already-resolved component string the caller passes in
its options; `machineId` is the instance's machine id; `ts` models
`getCurrentTimestamp()` and `eid` the fresh `generateULID()` result. -/
def createBaseEvent (kind : String) (data : JsVal) (o : WriteOptions)
    (component : String) (machineId : String) (ts : String) (eid : String) : OmniEvent where
  schema_version := "1.0"
  ts := ts
  event_id := eid
  machine := { id := machineId }
  context := { session_id := o.sessionId, actor := o.actor, phase := o.phase }
  event := { kind := kind, tags := o.tags }
  source := { component := component }
  data := data
  parent := { event_id := o.parentEventId, trace_id := o.parentTraceId,
              span_id := o.parentSpanId }

/-- The flattening of an envelope into the bound parameters of the `INSERT`
statement of `writeEventToDb` (lines 138–155): tags are comma-joined with
`event.event.tags?.join(",") || null` (an empty join is falsy, so it is
stored as NULL), and `data` is the JSON round-trip of the payload. -/
def eventToRow (e : OmniEvent) : Row where
  schema_version := e.schema_version
  ts := e.ts
  event_id := e.event_id
  machine_id := e.machine.id
  machine_hostname := e.machine.hostname
  context_session_id := e.context.session_id
  context_actor := e.context.actor
  context_phase := e.context.phase
  event_kind := e.event.kind
  event_tags :=
    match e.event.tags with
    | some tags => if joinComma tags == "" then none else some (joinComma tags)
    | none => none
  source_component := e.source.component
  source_version := e.source.version
  data := jsonSerialize e.data
  parent_event_id := e.parent.event_id
  parent_trace_id := e.parent.trace_id
  parent_span_id := e.parent.span_id

/-- `writeEventToDb` (lines 128–156): a single `INSERT` into `events`, whose
PRIMARY KEY on `event_id` makes a duplicate id fail the statement.  The
failure is the SQLite unique-constraint error; on success the new row is
appended.  No exception handling exists anywhere on this path. -/
def writeEventToDb (db : List Row) (e : OmniEvent) : Except String (List Row) :=
  if db.any (fun r => r.event_id == e.event_id) then
    .error "UNIQUE constraint failed: events.event_id"
  else
    .ok (db ++ [eventToRow e])

/-- Component defaulting of `writeEvent` (line 217):
`options.component || "constellation"` — an absent or empty (falsy)
component becomes `"constellation"`. -/
def resolveComponent : Option String → String
  | none => "constellation"
  | some c => if c == "" then "constellation" else c

/-- The envelope `writeEvent` builds before persisting (lines 215–218). -/
def builtEvent (kind : String) (data : JsVal) (o : WriteOptions)
    (machineId : String) (now : Nat) (random : List Char) (ts : String) : OmniEvent :=
  createBaseEvent kind data o (resolveComponent o.component) machineId ts
    (generateULID now random)

/-- `writeEvent` (lines 201–221): builds the envelope, persists it through
`writeEventToDb` and returns the generated `event_id`.  The pair is
(call result, store state after the call); an insert failure propagates to
the caller unhandled and leaves the store unchanged. -/
def writeEvent (kind : String) (data : JsVal) (o : WriteOptions)
    (machineId : String) (now : Nat) (random : List Char) (ts : String)
    (db : List Row) : Except String String × List Row :=
  let e := builtEvent kind data o machineId now random ts
  match writeEventToDb db e with
  | .ok db' => (.ok e.event_id, db')
  | .error msg => (.error msg, db)

/-- Strict lexicographic comparison of character lists, computed as a
`Bool`.  This is SQLite's BINARY collation (bytewise `memcmp`) restricted to
the ASCII strings the store compares (ISO timestamps, kinds, ids), where the
byte order and the codepoint order agree. -/
def charListLt : List Char → List Char → Bool
  | [], [] => false
  | [], _ :: _ => true
  | _ :: _, [] => false
  | a :: as, b :: bs => if a < b then true else if b < a then false else charListLt as bs

/-- String comparison under SQLite's BINARY collation. -/
def strLt (a b : String) : Bool := charListLt a.data b.data

/-- JavaScript truthiness of an optional string filter value: absent
(`undefined`) and the empty string are falsy. -/
def truthyStr : Option String → Bool
  | none => false
  | some s => !(s == "")

/-- JavaScript truthiness of an optional number filter value: absent
(`undefined`) and `0` are falsy. -/
def truthyNum : Option Nat → Bool
  | none => false
  | some n => !(n == 0)

/-- The WHERE clause `queryEvents` builds (lines 620–639): one `AND`ed
equality or bound per *truthy* filter field.  A NULL `context_session_id`
column never satisfies `context_session_id = ?`. -/
def matchesFilters (f : QueryFilters) (r : Row) : Bool :=
  (match f.kind with
   | none => true
   | some k => k == "" || r.event_kind == k) &&
  (match f.session_id with
   | none => true
   | some s => s == "" || r.context_session_id == some s) &&
  (match f.machine_id with
   | none => true
   | some m => m == "" || r.machine_id == m) &&
  (match f.start_ts with
   | none => true
   | some st => st == "" || !(strLt r.ts st)) &&
  (match f.end_ts with
   | none => true
   | some et => et == "" || !(strLt et r.ts))

/-- Insertion step of `ORDER BY ts DESC`: `r` is placed before the first row
whose timestamp is strictly smaller. -/
def insertDescByTs (r : Row) : List Row → List Row
  | [] => [r]
  | x :: xs => if strLt x.ts r.ts then r :: x :: xs else x :: insertDescByTs r xs

/-- The `ORDER BY ts DESC` of `queryEvents` (line 641): rows sorted by
descending timestamp (ties in unspecified relative order, as in SQLite). -/
def sortDescByTs : List Row → List Row
  | [] => []
  | x :: xs => insertDescByTs x (sortDescByTs xs)

/-- The deserialisation of one row back into an envelope (lines 655–682):
NULL tags stay absent, a non-NULL tags column is split at every comma, and
the `data` TEXT column is `JSON.parse`d. -/
def rowToEvent (r : Row) : OmniEvent where
  schema_version := r.schema_version
  ts := r.ts
  event_id := r.event_id
  machine := { id := r.machine_id, hostname := r.machine_hostname }
  context := { session_id := r.context_session_id, actor := r.context_actor,
               phase := r.context_phase }
  event := { kind := r.event_kind,
             tags :=
               match r.event_tags with
               | none => none
               | some s => if s == "" then none else some (splitComma s) }
  source := { component := r.source_component, version := r.source_version }
  data := r.data
  parent := { event_id := r.parent_event_id, trace_id := r.parent_trace_id,
              span_id := r.parent_span_id }

/-- `queryEvents` (lines 616–683).  The SQL string is built by appending
` LIMIT ?` when `filters.limit` is truthy and then ` OFFSET ?` when
`filters.offset` is truthy (lines 643–650).  SQLite's grammar only accepts
`OFFSET` as part of a `LIMIT` clause, so the statement with an `OFFSET` and
no `LIMIT` fails to prepare with a syntax error; with both, rows are
produced in order, `offset` rows are skipped, and at most `limit` rows are
returned. -/
def queryEvents (f : QueryFilters) (db : List Row) : Except String (List OmniEvent) :=
  let sorted := sortDescByTs (db.filter (matchesFilters f))
  if truthyNum f.offset then
    if truthyNum f.limit then
      .ok ((((sorted.drop (f.offset.getD 0))).take (f.limit.getD 0)).map rowToEvent)
    else
      .error "near OFFSET: syntax error"
  else if truthyNum f.limit then
    .ok ((sorted.take (f.limit.getD 0)).map rowToEvent)
  else
    .ok (sorted.map rowToEvent)

/-- The query contract stated by the spec, used as the reference predicate
for the filter-composition claim: each *supplied* filter field must be
satisfied, conjunctively — kind, session and machine by equality, the
timestamp bounds inclusively. -/
def specMatches (f : QueryFilters) (r : Row) : Bool :=
  (match f.kind with
   | none => true
   | some k => r.event_kind == k) &&
  (match f.session_id with
   | none => true
   | some s => r.context_session_id == some s) &&
  (match f.machine_id with
   | none => true
   | some m => r.machine_id == m) &&
  (match f.start_ts with
   | none => true
   | some st => !(strLt r.ts st)) &&
  (match f.end_ts with
   | none => true
   | some et => !(strLt et r.ts))

/-- The `options` of `writeToolExecute` (lines 228–237). -/
structure ToolExecuteOptions where
  sessionId : Option String := none
  agent : Option String := none
  result : Option JsVal := none
  duration_ms : Option Int := none
  error : Option String := none
  parentEventId : Option String := none
  parentTraceId : Option String := none
  parentSpanId : Option String := none

/-- The `data` record `writeToolExecute` assembles (lines 239–252): the
object literal with `tool_name`, `args`, `context_session_id`,
`context_agent`, `phase`, then — in `phase === "after"` only — `result` and
`duration_ms` when not `undefined`, then `error` when truthy. -/
def toolExecuteData (toolName : String) (args : JsObj) (phase : String)
    (o : ToolExecuteOptions) : JsObj :=
  let base : JsObj :=
    .cons "tool_name" (.str toolName)
      (.cons "args" (.obj args)
        (.cons "context_session_id" (optStr o.sessionId)
          (.cons "context_agent" (optStr o.agent)
            (.cons "phase" (.str phase) .nil))))
  let afterFields : JsObj :=
    if phase == "after" then
      JsObj.append
        (match o.result with
         | some v => .cons "result" v .nil
         | none => .nil)
        (match o.duration_ms with
         | some d => .cons "duration_ms" (.num d) .nil
         | none => .nil)
    else .nil
  let errorField : JsObj :=
    match o.error with
    | some e => if e == "" then .nil else .cons "error" (.str e) .nil
    | none => .nil
  base.append (afterFields.append errorField)

/-- `writeToolExecute` (lines 224–262): the typed writer for
`constellation:tool_execute`. -/
def writeToolExecute (toolName : String) (args : JsObj) (phase : String)
    (o : ToolExecuteOptions) (machineId : String) (now : Nat) (random : List Char)
    (ts : String) (db : List Row) : Except String String × List Row :=
  writeEvent "constellation:tool_execute" (.obj (toolExecuteData toolName args phase o))
    { sessionId := o.sessionId, component := some "tool-executor", phase := some phase,
      parentEventId := o.parentEventId, parentTraceId := o.parentTraceId,
      parentSpanId := o.parentSpanId }
    machineId now random ts db

/-- The `options` of `writeError` (lines 422–434). -/
structure ErrorOptions where
  errorCode : Option String := none
  retryable : Option Bool := none
  transient : Option Bool := none
  sessionId : Option String := none
  toolName : Option String := none
  invariantsViolated : Option (List String) := none
  rawOutput : Option String := none
  recoveryActions : Option (List String) := none
  parentEventId : Option String := none
  parentTraceId : Option String := none
  parentSpanId : Option String := none

/-- A list of strings as a JavaScript array value. -/
def strArr (l : List String) : JsVal :=
  .arr (l.foldr (fun s acc => .cons (.str s) acc) .nil)

/-- The `data` record `writeError` assembles (lines 436–450): `retryable`
and `transient` are defaulted with `??` to `false` when omitted; the
trailing fields are added only when truthy (strings) or present (arrays). -/
def errorData (errorType message : String) (o : ErrorOptions) : JsObj :=
  let base : JsObj :=
    .cons "error_type" (.str errorType)
      (.cons "message" (.str message)
        (.cons "context_session_id" (optStr o.sessionId)
          (.cons "retryable" (.bool (o.retryable.getD false))
            (.cons "transient" (.bool (o.transient.getD false)) .nil))))
  let extras : JsObj :=
    JsObj.append
      (match o.errorCode with
       | some c => if c == "" then .nil else .cons "error_code" (.str c) .nil
       | none => .nil)
      (JsObj.append
        (match o.toolName with
         | some t => if t == "" then .nil else .cons "tool_name" (.str t) .nil
         | none => .nil)
        (JsObj.append
          (match o.invariantsViolated with
           | some l => .cons "invariants_violated" (strArr l) .nil
           | none => .nil)
          (JsObj.append
            (match o.rawOutput with
             | some s => if s == "" then .nil else .cons "raw_output" (.str s) .nil
             | none => .nil)
            (match o.recoveryActions with
             | some l => .cons "recovery_actions" (strArr l) .nil
             | none => .nil))))
  base.append extras

/-- The `WriteOptions` that `writeError` passes to `writeEvent` (lines
452–459): component `"error-handler"` and the tags list
`["error", errorType]`. -/
def errorWriteOptions (errorType : String) (o : ErrorOptions) : WriteOptions where
  sessionId := o.sessionId
  component := some "error-handler"
  tags := some ["error", errorType]
  parentEventId := o.parentEventId
  parentTraceId := o.parentTraceId
  parentSpanId := o.parentSpanId

/-- `writeError` (lines 419–460): the typed writer for the `error` kind. -/
def writeError (errorType message : String) (o : ErrorOptions)
    (machineId : String) (now : Nat) (random : List Char) (ts : String)
    (db : List Row) : Except String String × List Row :=
  writeEvent "error" (.obj (errorData errorType message o)) (errorWriteOptions errorType o)
    machineId now random ts db

/-- JS `String.prototype.trim`: strip whitespace from both ends. -/
def jsTrim (s : String) : String :=
  ⟨((s.data.dropWhile Char.isWhitespace).reverse.dropWhile Char.isWhitespace).reverse⟩

/-- `initializeMachineId` (lines 64–83).  Inputs model the ambient state:
`env` is `process.env.MACHINE_ID` (a set-but-empty variable is present yet
falsy), `file` is the current content of `<dataDir>/.machine_id` (`none`
when the file does not exist), `randomStr` models
`randomBytes(3).toString("hex").substring(0, 6)`.  The result pairs the
resolved machine id with the identity-file content afterwards: the file is
written only in the generation branch. -/
def initializeMachineId (env : Option String) (file : Option String)
    (randomStr : String) : String × Option String :=
  if truthyStr env then (env.getD "", file)
  else
    match file with
    | some content => (jsTrim content, some content)
    | none =>
      let newMachineId := "constellation-" ++ randomStr
      (newMachineId, some newMachineId)

/-- The ambient dependencies a `new Observability(dataDir)` construction
(lines 52–62) consumes: `resolve` models Node's `path.resolve`, `joinPath`
the two-argument `resolve(dir, name)`, and the remaining fields the
environment, the identity file, the random draw and the rows already in
`<dataDir>/observability.db` when it is reopened. -/
structure EnvDeps where
  resolve : String → String
  joinPath : String → String → String
  envMachineId : Option String
  machineIdFileContent : Option String
  randomStr : String
  existingDb : List Row

/-- The `Observability` instance state set up by the constructor
(lines 46–62). -/
structure Observability where
  dataDir : String
  machineIdFile : String
  machineId : String
  db : List Row

/-- The constructor `new Observability(dataDir)` (lines 52–62): resolves the
data directory, derives the identity-file path, resolves the machine id and
opens the database (`initializeSchema` is `CREATE TABLE IF NOT EXISTS`, so
reopening keeps the existing rows). -/
def Observability.construct (deps : EnvDeps) (dataDir : String) : Observability :=
  let dd := deps.resolve dataDir
  { dataDir := dd
    machineIdFile := deps.joinPath dd ".machine_id"
    machineId := (initializeMachineId deps.envMachineId deps.machineIdFileContent
      deps.randomStr).1
    db := deps.existingDb }

/-- `initializeObservability` (lines 697–704) acting on the module-level
`observabilityInstance` cell: the pair is (returned instance, cell after the
call).  A second call finds the cell set and returns it untouched. -/
def initializeObservability (dataDir : String) (deps : EnvDeps)
    (cell : Option Observability) : Observability × Option Observability :=
  match cell with
  | some inst => (inst, some inst)
  | none =>
    let inst := Observability.construct deps dataDir
    (inst, some inst)

/-- `getObservability` (lines 706–711): like `initializeObservability` but
constructing against the default directory `"data"` when the cell is
empty. -/
def getObservability (deps : EnvDeps) (cell : Option Observability) :
    Observability × Option Observability :=
  match cell with
  | some inst => (inst, some inst)
  | none =>
    let inst := Observability.construct deps "data"
    (inst, some inst)

theorem splitCommaAux_no_comma (cs : List Char) :
    ∀ cur, ',' ∉ cs → splitCommaAux cs cur = [⟨cur.reverse ++ cs⟩] := by
  induction cs with
  | nil => intro cur _; simp [splitCommaAux]
  | cons c rest ih =>
    intro cur h
    have hc : ¬ (c == ',') = true := by
      simp only [beq_iff_eq]
      intro he
      exact h (he ▸ List.mem_cons_self c rest)
    rw [splitCommaAux, if_neg hc, ih (c :: cur) (fun hm => h (List.mem_cons_of_mem c hm))]
    simp

theorem splitCommaAux_cut (pre : List Char) :
    ∀ post cur, ',' ∉ pre →
      splitCommaAux (pre ++ ',' :: post) cur = ⟨cur.reverse ++ pre⟩ :: splitCommaAux post [] := by
  induction pre with
  | nil => intro post cur _; simp [splitCommaAux]
  | cons c rest ih =>
    intro post cur h
    have hc : ¬ (c == ',') = true := by
      simp only [beq_iff_eq]
      intro he
      exact h (he ▸ List.mem_cons_self c rest)
    rw [List.cons_append, splitCommaAux, if_neg hc,
      ih post (c :: cur) (fun hm => h (List.mem_cons_of_mem c hm))]
    simp

theorem splitComma_joinComma : ∀ l : List String, l ≠ [] → (∀ s ∈ l, ',' ∉ s.data) →
    splitComma (joinComma l) = l := by
  intro l
  induction l with
  | nil => intro h; exact absurd rfl h
  | cons s rest ih =>
    intro _ hc
    match rest with
    | [] =>
      show splitCommaAux (joinComma [s]).data [] = [s]
      rw [joinComma]
      rw [splitCommaAux_no_comma s.data [] (hc s (List.mem_cons_self s []))]
      simp
    | s' :: rest' =>
      show splitCommaAux (joinComma (s :: s' :: rest')).data [] = s :: s' :: rest'
      have hj : joinComma (s :: s' :: rest') = s ++ "," ++ joinComma (s' :: rest') := rfl
      have hd : (s ++ "," ++ joinComma (s' :: rest')).data
          = s.data ++ ',' :: (joinComma (s' :: rest')).data := by
        simp [String.data_append]
      rw [hj, hd, splitCommaAux_cut s.data _ [] (hc s (List.mem_cons_self s _))]
      have htail := ih (by simp) (fun t ht => hc t (List.mem_cons_of_mem s ht))
      rw [show splitCommaAux (joinComma (s' :: rest')).data [] =
        splitComma (joinComma (s' :: rest')) from rfl, htail]
      simp

theorem insertDescByTs_perm (r : Row) (l : List Row) :
    List.Perm (insertDescByTs r l) (r :: l) := by
  induction l with
  | nil => rfl
  | cons x xs ih =>
    rw [insertDescByTs]
    by_cases h : strLt x.ts r.ts
    · simp [h]
    · simp only [h, if_false]
      exact (ih.cons x).trans (List.Perm.swap r x xs)

theorem sortDescByTs_perm (l : List Row) : List.Perm (sortDescByTs l) l := by
  induction l with
  | nil => rfl
  | cons x xs ih =>
    rw [sortDescByTs]
    exact (insertDescByTs_perm x (sortDescByTs xs)).trans (ih.cons x)

theorem charListLt_asymm : ∀ a b : List Char, charListLt a b = true → charListLt b a = false := by
  intro a
  induction a with
  | nil =>
    intro b _
    cases b <;> rfl
  | cons x as ih =>
    intro b h
    cases b with
    | nil => simp [charListLt] at h
    | cons y bs =>
      rw [charListLt] at h ⊢
      by_cases hxy : x < y
      · have hyx : ¬ y < x := lt_asymm hxy
        simp [hxy, hyx]
      · by_cases hyx : y < x
        · simp [hxy, hyx] at h
        · simp only [hxy, hyx, if_false] at h ⊢
          exact ih bs h

theorem charListLt_trans :
    ∀ a b c : List Char, charListLt a b = true → charListLt b c = true →
      charListLt a c = true := by
  intro a
  induction a with
  | nil =>
    intro b c hab hbc
    cases b with
    | nil => simp [charListLt] at hab
    | cons y bs =>
      cases c with
      | nil => simp [charListLt] at hbc
      | cons z cs => rfl
  | cons x as ih =>
    intro b c hab hbc
    cases b with
    | nil => simp [charListLt] at hab
    | cons y bs =>
      cases c with
      | nil => simp [charListLt] at hbc
      | cons z cs =>
        rw [charListLt] at hab hbc ⊢
        by_cases hxy : x < y
        · by_cases hyz : y < z
          · simp [lt_trans hxy hyz]
          · by_cases hzy : z < y
            · simp [hyz, hzy] at hbc
            · have hyeq : y = z := le_antisymm (not_lt.mp hzy) (not_lt.mp hyz)
              subst hyeq
              simp [hxy]
        · by_cases hyx : y < x
          · simp [hxy, hyx] at hab
          · have hxeq : x = y := le_antisymm (not_lt.mp hyx) (not_lt.mp hxy)
            subst hxeq
            simp only [lt_irrefl, if_false] at hab
            by_cases hyz : x < z
            · simp [hyz]
            · by_cases hzy : z < x
              · simp [hyz, hzy] at hbc
              · simp only [hyz, hzy, if_false] at hbc ⊢
                exact ih bs cs hab hbc

theorem strLt_asymm {a b : String} (h : strLt a b = true) : strLt b a = false :=
  charListLt_asymm a.data b.data h

theorem strLt_trans {a b c : String} (hab : strLt a b = true) (hbc : strLt b c = true) :
    strLt a c = true :=
  charListLt_trans a.data b.data c.data hab hbc

theorem insertDescByTs_pairwise (r : Row) (l : List Row)
    (h : List.Pairwise (fun a b => strLt a.ts b.ts = false) l) :
    List.Pairwise (fun a b => strLt a.ts b.ts = false) (insertDescByTs r l) := by
  induction l with
  | nil => simp [insertDescByTs]
  | cons x xs ih =>
    rw [insertDescByTs]
    rcases List.pairwise_cons.mp h with ⟨hx, hxs⟩
    by_cases hlt : strLt x.ts r.ts
    · simp only [hlt, if_true]
      apply List.pairwise_cons.mpr
      refine ⟨?_, h⟩
      intro y hy
      rcases List.mem_cons.mp hy with hyx | hyxs
      · subst hyx
        exact strLt_asymm hlt
      · by_contra hc
        have hry : strLt r.ts y.ts = true := by
          cases hval : strLt r.ts y.ts
          · exact absurd hval hc
          · rfl
        have : strLt x.ts y.ts = true := strLt_trans hlt hry
        rw [hx y hyxs] at this
        exact Bool.false_ne_true this
    · simp only [hlt, if_false]
      apply List.pairwise_cons.mpr
      constructor
      · intro y hy
        rcases List.mem_cons.mp ((insertDescByTs_perm r xs).mem_iff.mp hy) with hyr | hyxs
        · rw [hyr]
          cases hval : strLt x.ts r.ts
          · rfl
          · exact absurd hval hlt
        · exact hx y hyxs
      · exact ih hxs

theorem sortDescByTs_sorted (l : List Row) :
    List.Pairwise (fun a b => strLt a.ts b.ts = false) (sortDescByTs l) := by
  induction l with
  | nil => exact List.Pairwise.nil
  | cons x xs ih =>
    rw [sortDescByTs]
    exact insertDescByTs_pairwise x (sortDescByTs xs) ih

/-- A concrete stored row, used by witnesses and counterexamples: a
`metric` event in session `S1`. -/
def sampleRow : Row where
  schema_version := "1.0"
  ts := "2026-01-01T00:00:00.000Z"
  event_id := "00000000000000EXAMPLE00001"
  machine_id := "constellation-abc123"
  machine_hostname := none
  context_session_id := some "S1"
  context_actor := none
  context_phase := none
  event_kind := "metric"
  event_tags := none
  source_component := "metrics"
  source_version := none
  data := .obj (.cons "metric_name" (.str "latency") (.cons "value" (.num 45) .nil))
  parent_event_id := none
  parent_trace_id := none
  parent_span_id := none

/-- A fixture row with a given event id and timestamp. -/
def fixtureRow (eid ts : String) : Row :=
  { sampleRow with event_id := eid, ts := ts }

/-- Ten stored fixture events with distinct timestamps. -/
def fixtureRows : List Row :=
  [fixtureRow "E0" "2026-01-01T00:00:00.000Z",
   fixtureRow "E1" "2026-01-01T00:00:01.000Z",
   fixtureRow "E2" "2026-01-01T00:00:02.000Z",
   fixtureRow "E3" "2026-01-01T00:00:03.000Z",
   fixtureRow "E4" "2026-01-01T00:00:04.000Z",
   fixtureRow "E5" "2026-01-01T00:00:05.000Z",
   fixtureRow "E6" "2026-01-01T00:00:06.000Z",
   fixtureRow "E7" "2026-01-01T00:00:07.000Z",
   fixtureRow "E8" "2026-01-01T00:00:08.000Z",
   fixtureRow "E9" "2026-01-01T00:00:09.000Z"]

/-- C10 (confirmed): `queryEvents` guards `limit` and `offset` with JS
truthiness (lines 643–650), so a limit of 0 or an offset of 0 behaves
exactly as an absent field: `limit = 0` adds no `LIMIT` clause and returns
all matching events rather than an empty list, and `offset = 0` adds no
`OFFSET` clause. -/
theorem queryEvents_zero_limit_offset (f : QueryFilters) (db : List Row) :
    queryEvents { f with limit := some 0 } db = queryEvents { f with limit := none } db ∧
    queryEvents { f with offset := some 0 } db = queryEvents { f with offset := none } db ∧
    queryEvents { f with limit := some 0, offset := some 0 } db =
      .ok ((sortDescByTs (db.filter
        (matchesFilters { f with limit := some 0, offset := some 0 }))).map rowToEvent) :=
  ⟨rfl, rfl, rfl⟩

/-- C4 (amended): pagination is applied after the descending-timestamp
ordering — with a truthy `limit` and a truthy `offset` the query returns the
ordered matching events from position `offset + 1`, at most `limit` of them
— but `limit` and `offset` are not independently optional: an `OFFSET`
clause is emitted without a `LIMIT` clause when only `offset` is truthy, and
that statement is invalid SQLite, so the call fails instead of returning the
events from position `offset + 1` on. -/
theorem queryEvents_pagination (f : QueryFilters) (db : List Row) (l o : Nat)
    (hl : l ≠ 0) (ho : o ≠ 0) :
    queryEvents { f with limit := none, offset := some o } db =
      .error "near OFFSET: syntax error" ∧
    queryEvents { f with limit := some l, offset := some o } db =
      .ok ((((sortDescByTs (db.filter (matchesFilters f))).drop o).take l).map rowToEvent) ∧
    List.Pairwise (fun a b => strLt a.ts b.ts = false)
      (sortDescByTs (db.filter (matchesFilters f))) := by
  refine ⟨?_, ?_, sortDescByTs_sorted _⟩
  · unfold queryEvents
    simp [truthyNum, ho]
  · unfold queryEvents
    simp [truthyNum, ho, hl]
    rfl

/-- C4 witness: the amended pagination theorem applied at `limit = 3`,
`offset = 3` on the empty filter set and an empty store. -/
theorem queryEvents_pagination_witness :
    queryEvents { limit := none, offset := some 3 } fixtureRows =
      .error "near OFFSET: syntax error" ∧
    queryEvents { limit := some 3, offset := some 3 } fixtureRows =
      .ok (((((sortDescByTs (fixtureRows.filter (matchesFilters {}))).drop 3).take 3)).map
        rowToEvent) ∧
    List.Pairwise (fun a b => strLt a.ts b.ts = false)
      (sortDescByTs (fixtureRows.filter (matchesFilters {}))) :=
  queryEvents_pagination {} fixtureRows 3 3 (by decide) (by decide)

theorem strBeq_false_of_ne {a b : String} (h : ¬ a = b) : (a == b) = false :=
  beq_eq_false_iff_ne.mpr h

theorem matchesFilters_eq_specMatches (f : QueryFilters) (r : Row)
    (hk : f.kind ≠ some "") (hs : f.session_id ≠ some "") (hm : f.machine_id ≠ some "")
    (hst : f.start_ts ≠ some "") (het : f.end_ts ≠ some "") :
    matchesFilters f r = specMatches f r := by
  obtain ⟨k, s, m, st, et, lim, off⟩ := f
  simp only at hk hs hm hst het
  rcases k with _ | k <;> rcases s with _ | s <;> rcases m with _ | m <;>
    rcases st with _ | st <;> rcases et with _ | et <;>
    simp_all [matchesFilters, specMatches, strBeq_false_of_ne]

/-- C5 (amended): `queryEvents` combines its supplied filter fields
conjunctively — provided each supplied string filter is non-empty, since an
empty-string value is falsy and its clause is skipped (same truthiness
guard C10 describes for `limit`/`offset`).  Without pagination the result is
exactly (a reordering of) the stored events satisfying every supplied
filter, and with no filter fields supplied it is exactly the stored
events. -/
theorem queryEvents_conjunctive (f : QueryFilters) (db : List Row)
    (hk : f.kind ≠ some "") (hs : f.session_id ≠ some "") (hm : f.machine_id ≠ some "")
    (hst : f.start_ts ≠ some "") (het : f.end_ts ≠ some "")
    (hl : f.limit = none) (ho : f.offset = none) :
    queryEvents f db =
      .ok ((sortDescByTs (db.filter (specMatches f))).map rowToEvent) ∧
    List.Perm ((sortDescByTs (db.filter (specMatches f))).map rowToEvent)
      ((db.filter (specMatches f)).map rowToEvent) ∧
    (f.kind = none → f.session_id = none → f.machine_id = none → f.start_ts = none →
      f.end_ts = none →
      (db.filter (specMatches f)).map rowToEvent = db.map rowToEvent) := by
  refine ⟨?_, ?_, ?_⟩
  · unfold queryEvents
    rw [hl, ho]
    have hfc : db.filter (matchesFilters f) = db.filter (specMatches f) :=
      List.filter_congr (fun r _ => matchesFilters_eq_specMatches f r hk hs hm hst het)
    simp [truthyNum, hfc]
  · exact (sortDescByTs_perm _).map rowToEvent
  · intro h1 h2 h3 h4 h5
    have : db.filter (specMatches f) = db := by
      apply List.filter_eq_self.mpr
      intro r _
      unfold specMatches
      rw [h1, h2, h3, h4, h5]
      rfl
    rw [this]

/-- C5 witness: the conjunctive-filter theorem applied to the empty filter
set over a one-row store. -/
theorem queryEvents_conjunctive_witness :
    queryEvents {} [sampleRow] =
      .ok ((sortDescByTs ([sampleRow].filter (specMatches {}))).map rowToEvent) ∧
    List.Perm ((sortDescByTs ([sampleRow].filter (specMatches {}))).map rowToEvent)
      (([sampleRow].filter (specMatches {})).map rowToEvent) ∧
    (({} : QueryFilters).kind = none → ({} : QueryFilters).session_id = none →
      ({} : QueryFilters).machine_id = none → ({} : QueryFilters).start_ts = none →
      ({} : QueryFilters).end_ts = none →
      (([sampleRow].filter (specMatches {})).map rowToEvent = [sampleRow].map rowToEvent)) :=
  queryEvents_conjunctive {} [sampleRow] (by decide) (by decide) (by decide) (by decide)
    (by decide) rfl rfl

/-- C5 (counterexample): with a supplied `kind` filter that is the empty
string, `queryEvents` ignores the clause (empty strings are falsy) and
returns a stored `metric` event even though that event does not satisfy the
supplied kind filter, so the result is not "exactly the events satisfying
all supplied filters". -/
theorem queryEvents_empty_kind_filter_ignored :
    queryEvents { kind := some "" } [sampleRow] = .ok [rowToEvent sampleRow] ∧
    sampleRow.event_kind ≠ "" ∧
    [sampleRow].filter (specMatches { kind := some "" }) = [] :=
  ⟨rfl, by decide, rfl⟩

/-- C4 (counterexample): `limit` and `offset` are not independently
optional.  With ten stored events, a query supplying `offset = 3` alone
does not return the events ranked 4 on down: the generated statement ends
in `OFFSET ?` with no `LIMIT` clause, which SQLite rejects, so the call
fails. -/
theorem queryEvents_offset_alone_fails :
    fixtureRows.length = 10 ∧
    queryEvents { offset := some 3 } fixtureRows = .error "near OFFSET: syntax error" ∧
    queryEvents { limit := some 3, offset := some 3 } fixtureRows =
      .ok [rowToEvent (fixtureRow "E6" "2026-01-01T00:00:06.000Z"),
           rowToEvent (fixtureRow "E5" "2026-01-01T00:00:05.000Z"),
           rowToEvent (fixtureRow "E4" "2026-01-01T00:00:04.000Z")] ∧
    queryEvents { limit := some 3 } fixtureRows =
      .ok [rowToEvent (fixtureRow "E9" "2026-01-01T00:00:09.000Z"),
           rowToEvent (fixtureRow "E8" "2026-01-01T00:00:08.000Z"),
           rowToEvent (fixtureRow "E7" "2026-01-01T00:00:07.000Z")] ∧
    queryEvents { limit := some 3, offset := some 6 } fixtureRows =
      .ok [rowToEvent (fixtureRow "E3" "2026-01-01T00:00:03.000Z"),
           rowToEvent (fixtureRow "E2" "2026-01-01T00:00:02.000Z"),
           rowToEvent (fixtureRow "E1" "2026-01-01T00:00:01.000Z")] :=
  ⟨rfl, rfl, rfl, rfl, rfl⟩

theorem rowToEvent_eventToRow (e : OmniEvent)
    (htags : e.event.tags = none ∨
      ∃ l, e.event.tags = some l ∧ joinComma l ≠ "" ∧ ∀ s ∈ l, ',' ∉ s.data)
    (hdata : jsonSerialize e.data = e.data) :
    rowToEvent (eventToRow e) = e := by
  obtain ⟨sv, ts, eid, ⟨mid, mh⟩, ⟨cs, ca, cp⟩, ⟨kind, tags⟩, ⟨comp, ver⟩, data, pe, pt, ps⟩ := e
  simp only at htags hdata
  simp only [rowToEvent, eventToRow]
  rcases htags with h | ⟨l, hl, hne, hc⟩
  · subst h
    simp [hdata]
  · subst hl
    have hlne : l ≠ [] := by
      intro h'
      subst h'
      exact hne rfl
    have hbeq : (joinComma l == "") = false := strBeq_false_of_ne hne
    simp [hbeq, hdata, splitComma_joinComma l hlne hc]

/-- C2 (amended): writing an event through `writeEvent` and immediately
querying it back returns a structurally identical envelope — nested data,
context and the parent `event_id`/`trace_id`/`span_id` links preserved
exactly — provided the tags list, if present, joins to a non-empty string
and no tag contains a comma (the flattened TEXT column cannot represent an
empty list, the list `[""]`, or commas inside a tag), and the data payload
is JSON-representable (fixed by `JSON.parse ∘ JSON.stringify`, i.e. free of
`undefined` members). -/
theorem writeEvent_roundtrip (kind : String) (data : JsVal) (o : WriteOptions)
    (machineId : String) (now : Nat) (random : List Char) (ts : String)
    (htags : o.tags = none ∨
      ∃ l, o.tags = some l ∧ joinComma l ≠ "" ∧ ∀ s ∈ l, ',' ∉ s.data)
    (hdata : jsonSerialize data = data) :
    writeEvent kind data o machineId now random ts [] =
      (.ok (builtEvent kind data o machineId now random ts).event_id,
       [eventToRow (builtEvent kind data o machineId now random ts)]) ∧
    queryEvents {} [eventToRow (builtEvent kind data o machineId now random ts)] =
      .ok [builtEvent kind data o machineId now random ts] := by
  have hrt : rowToEvent (eventToRow (builtEvent kind data o machineId now random ts)) =
      builtEvent kind data o machineId now random ts :=
    rowToEvent_eventToRow _ htags hdata
  constructor
  · unfold writeEvent writeEventToDb
    simp
  · unfold queryEvents
    simp [truthyNum, matchesFilters, sortDescByTs, insertDescByTs, hrt]

/-- C2 witness: the round-trip theorem applied to a concrete event with the
tags `["x", "y"]`, a nested data payload and a parent link. -/
theorem writeEvent_roundtrip_witness :
    writeEvent "metric" (.obj (.cons "value" (.num 45) .nil))
        { sessionId := some "S1", tags := some ["x", "y"], parentEventId := some "E1" }
        "m1" 1700000000000 (List.replicate 12 '0') "2026-01-01T00:00:00.000Z" [] =
      (.ok (builtEvent "metric" (.obj (.cons "value" (.num 45) .nil))
          { sessionId := some "S1", tags := some ["x", "y"], parentEventId := some "E1" }
          "m1" 1700000000000 (List.replicate 12 '0') "2026-01-01T00:00:00.000Z").event_id,
       [eventToRow (builtEvent "metric" (.obj (.cons "value" (.num 45) .nil))
          { sessionId := some "S1", tags := some ["x", "y"], parentEventId := some "E1" }
          "m1" 1700000000000 (List.replicate 12 '0') "2026-01-01T00:00:00.000Z")]) ∧
    queryEvents {} [eventToRow (builtEvent "metric" (.obj (.cons "value" (.num 45) .nil))
        { sessionId := some "S1", tags := some ["x", "y"], parentEventId := some "E1" }
        "m1" 1700000000000 (List.replicate 12 '0') "2026-01-01T00:00:00.000Z")] =
      .ok [builtEvent "metric" (.obj (.cons "value" (.num 45) .nil))
        { sessionId := some "S1", tags := some ["x", "y"], parentEventId := some "E1" }
        "m1" 1700000000000 (List.replicate 12 '0') "2026-01-01T00:00:00.000Z"] :=
  writeEvent_roundtrip "metric" (.obj (.cons "value" (.num 45) .nil))
    { sessionId := some "S1", tags := some ["x", "y"], parentEventId := some "E1" }
    "m1" 1700000000000 (List.replicate 12 '0') "2026-01-01T00:00:00.000Z"
    (Or.inr ⟨["x", "y"], rfl, by decide, by decide⟩) rfl

/-- The concrete envelope of the C2 counterexample: a single tag that
contains a comma. -/
def commaTagEvent : OmniEvent :=
  builtEvent "test" (.obj .nil) { tags := some ["a,b"] } "m1" 1700000000000
    (List.replicate 12 '0') "2026-01-01T00:00:00.000Z"

/-- C2 (counterexample): the round trip is not structurally identical for
every tags list.  An event written with the single tag `"a,b"` is queried
back with the tags list `["a", "b"]`: the comma-joined TEXT column confuses
the tag's comma with a separator. -/
theorem writeEvent_roundtrip_comma_tag_broken :
    queryEvents {} [eventToRow commaTagEvent] =
      .ok [rowToEvent (eventToRow commaTagEvent)] ∧
    commaTagEvent.event.tags = some ["a,b"] ∧
    (rowToEvent (eventToRow commaTagEvent)).event.tags = some ["a", "b"] ∧
    rowToEvent (eventToRow commaTagEvent) ≠ commaTagEvent :=
  ⟨rfl, rfl, rfl, fun h => absurd (congrArg (fun ev => ev.event.tags) h) (by decide)⟩

/-- C3 (amended): whenever the caller supplies `sessionId`, the stored data
payload of a `constellation:tool_execute` event carries all four required
fields `tool_name`, `args`, `context_session_id` and `phase`; `tool_name`,
`args` and `phase` are carried unconditionally.  (When `sessionId` is
omitted, `context_session_id` is the value `undefined` and
`JSON.stringify` silently drops it from the persisted payload — the
counterexample.) -/
theorem writeToolExecute_required_fields (toolName : String) (args : JsObj) (phase : String)
    (o : ToolExecuteOptions) (sid : String) (h : o.sessionId = some sid)
    (machineId : String) (now : Nat) (random : List Char) (ts : String) :
    "tool_name" ∈ (jsonSerializeObj (toolExecuteData toolName args phase o)).keys ∧
    "args" ∈ (jsonSerializeObj (toolExecuteData toolName args phase o)).keys ∧
    "context_session_id" ∈ (jsonSerializeObj (toolExecuteData toolName args phase o)).keys ∧
    "phase" ∈ (jsonSerializeObj (toolExecuteData toolName args phase o)).keys ∧
    ((writeToolExecute toolName args phase o machineId now random ts []).2.map Row.data) =
      [.obj (jsonSerializeObj (toolExecuteData toolName args phase o))] := by
  refine ⟨?_, ?_, ?_, ?_, ?_⟩
  · rcases hag : o.agent with _ | a <;>
      simp [toolExecuteData, h, hag, optStr, JsObj.append, jsonSerializeObj, JsVal.isUndef,
        JsObj.keys]
  · rcases hag : o.agent with _ | a <;>
      simp [toolExecuteData, h, hag, optStr, JsObj.append, jsonSerializeObj, JsVal.isUndef,
        JsObj.keys]
  · rcases hag : o.agent with _ | a <;>
      simp [toolExecuteData, h, hag, optStr, JsObj.append, jsonSerializeObj, JsVal.isUndef,
        JsObj.keys]
  · rcases hag : o.agent with _ | a <;>
      simp [toolExecuteData, h, hag, optStr, JsObj.append, jsonSerializeObj, JsVal.isUndef,
        JsObj.keys]
  · simp [writeToolExecute, writeEvent, writeEventToDb, eventToRow, jsonSerialize,
      builtEvent, createBaseEvent]

/-- C3 witness: the required-field theorem at a concrete call that supplies
`sessionId = "S1"`. -/
theorem writeToolExecute_required_fields_witness :
    "tool_name" ∈ (jsonSerializeObj (toolExecuteData "db-query" .nil "before"
      { sessionId := some "S1" })).keys ∧
    "args" ∈ (jsonSerializeObj (toolExecuteData "db-query" .nil "before"
      { sessionId := some "S1" })).keys ∧
    "context_session_id" ∈ (jsonSerializeObj (toolExecuteData "db-query" .nil "before"
      { sessionId := some "S1" })).keys ∧
    "phase" ∈ (jsonSerializeObj (toolExecuteData "db-query" .nil "before"
      { sessionId := some "S1" })).keys ∧
    ((writeToolExecute "db-query" .nil "before" { sessionId := some "S1" } "m1"
        1700000000000 (List.replicate 12 '0') "2026-01-01T00:00:00.000Z" []).2.map Row.data) =
      [.obj (jsonSerializeObj (toolExecuteData "db-query" .nil "before"
        { sessionId := some "S1" }))] :=
  writeToolExecute_required_fields "db-query" .nil "before" { sessionId := some "S1" }
    "S1" rfl "m1" 1700000000000 (List.replicate 12 '0') "2026-01-01T00:00:00.000Z"

/-- C3 (counterexample): `writeToolExecute` accepts a call with no
`sessionId` (its whole options argument defaults to `{}`), and the persisted
data payload of the written event then lacks the required field
`context_session_id` — it holds exactly `tool_name`, `args`, `phase`.  The
writer silently omits a required field. -/
theorem writeToolExecute_omits_required_session :
    (jsonSerializeObj (toolExecuteData "db-query" .nil "before" {})).keys =
      ["tool_name", "args", "phase"] ∧
    "context_session_id" ∉ (jsonSerializeObj (toolExecuteData "db-query" .nil "before" {})).keys ∧
    ((writeToolExecute "db-query" .nil "before" {} "m1" 1700000000000
        (List.replicate 12 '0') "2026-01-01T00:00:00.000Z" []).2.map Row.data) =
      [.obj (jsonSerializeObj (toolExecuteData "db-query" .nil "before" {}))] :=
  ⟨by decide, by decide, rfl⟩

/-- C9 (confirmed): every `error` event written through `writeError` carries
boolean `retryable` and `transient` fields in its persisted data payload —
the `??` defaulting makes them `false` rather than absent when the caller
omits them — and the envelope is always tagged with exactly
`["error", errorType]`. -/
theorem writeError_defaults_and_tags (errorType message : String) (o : ErrorOptions)
    (machineId : String) (now : Nat) (random : List Char) (ts : String) (db : List Row) :
    (builtEvent "error" (.obj (errorData errorType message o)) (errorWriteOptions errorType o)
        machineId now random ts).event.tags = some ["error", errorType] ∧
    (jsonSerializeObj (errorData errorType message o)).lookup "retryable"
      = some (.bool (o.retryable.getD false)) ∧
    (jsonSerializeObj (errorData errorType message o)).lookup "transient"
      = some (.bool (o.transient.getD false)) ∧
    writeError errorType message o machineId now random ts db =
      writeEvent "error" (.obj (errorData errorType message o))
        (errorWriteOptions errorType o) machineId now random ts db := by
  refine ⟨rfl, ?_, ?_, rfl⟩
  · rcases hcs : o.sessionId with _ | s <;>
      simp [errorData, hcs, optStr, jsonSerializeObj, jsonSerialize, JsVal.isUndef,
        JsObj.lookup]
  · rcases hcs : o.sessionId with _ | s <;>
      simp [errorData, hcs, optStr, jsonSerializeObj, jsonSerialize, JsVal.isUndef,
        JsObj.lookup]

/-- C6 (amended): machine-identity precedence.  (a) A *non-empty* `MACHINE_ID`
override is returned as-is and nothing is persisted (an empty-string
override is falsy and is skipped — the counterexample); otherwise (b) an
existing identity file's content is returned trimmed, with the file left
unchanged; otherwise (c) a fresh id — the fixed prefix `constellation-`
joined with the 6-character random hex suffix — is generated, persisted to
the identity file, and returned.  A file is created only in branch (c). -/
theorem initializeMachineId_precedence (env file : Option String) (randomStr : String) :
    (∀ v, env = some v → v ≠ "" → initializeMachineId env file randomStr = (v, file)) ∧
    (truthyStr env = false → ∀ c, file = some c →
      initializeMachineId env file randomStr = (jsTrim c, some c)) ∧
    (truthyStr env = false → file = none →
      initializeMachineId env file randomStr =
        ("constellation-" ++ randomStr, some ("constellation-" ++ randomStr))) := by
  refine ⟨?_, ?_, ?_⟩
  · intro v hv hne
    subst hv
    unfold initializeMachineId
    have : truthyStr (some v) = true := by simp [truthyStr, hne]
    simp [this]
  · intro henv c hc
    subst hc
    unfold initializeMachineId
    simp [henv]
  · intro henv hf
    subst hf
    unfold initializeMachineId
    simp [henv]

/-- C6 witness: the precedence theorem exercised on all three branches at
concrete inputs. -/
theorem initializeMachineId_precedence_witness :
    initializeMachineId (some "env-id") (some "file-id") "abc123" = ("env-id", some "file-id") ∧
    initializeMachineId none (some " file-id ") "abc123" =
      (jsTrim " file-id ", some " file-id ") ∧
    initializeMachineId none none "abc123" =
      ("constellation-" ++ "abc123", some ("constellation-" ++ "abc123")) :=
  ⟨(initializeMachineId_precedence (some "env-id") (some "file-id") "abc123").1
      "env-id" rfl (by decide),
   (initializeMachineId_precedence none (some " file-id ") "abc123").2.1
      rfl " file-id " rfl,
   (initializeMachineId_precedence none none "abc123").2.2 rfl rfl⟩

/-- C6 (counterexample): an empty-string `MACHINE_ID` override is *present*
in the environment, but the truthiness check skips it: the resolver falls
through to the identity file and returns `"m1"` rather than the override
value `""`. -/
theorem initializeMachineId_empty_override_not_used :
    initializeMachineId (some "") (some "m1") "abc123" = ("m1", some "m1") ∧
    ("m1" : String) ≠ "" :=
  ⟨rfl, by decide⟩

/-- C7 (confirmed): when the single `INSERT` behind `writeEvent` fails —
here a duplicate `event_id` violating the primary key — the failure is
raised synchronously to the caller as the statement's error, with no retry
and no catch anywhere on the path, and the store's row list is unchanged:
no partial row is written. -/
theorem writeEvent_duplicate_id_fails (kind : String) (data : JsVal) (o : WriteOptions)
    (machineId : String) (now : Nat) (random : List Char) (ts : String) (db : List Row)
    (h : ∃ r ∈ db, r.event_id = generateULID now random) :
    writeEvent kind data o machineId now random ts db =
      (.error "UNIQUE constraint failed: events.event_id", db) := by
  obtain ⟨r, hr, hid⟩ := h
  have hany : db.any (fun x => x.event_id ==
      (builtEvent kind data o machineId now random ts).event_id) = true := by
    rw [List.any_eq_true]
    exact ⟨r, hr, by rw [show (builtEvent kind data o machineId now random ts).event_id =
      generateULID now random from rfl, hid]; exact beq_self_eq_true _⟩
  unfold writeEvent writeEventToDb
  simp only [hany, if_true]

/-- A stored row whose `event_id` equals the id the next `generateULID` call
will produce (same tick, same random draw). -/
def dupRow : Row :=
  { sampleRow with event_id := generateULID 1700000000000 (List.replicate 12 '0') }

/-- C7 witness: the duplicate-insert theorem at a concrete store already
holding the colliding id. -/
theorem writeEvent_duplicate_id_fails_witness :
    writeEvent "metric" (.obj .nil) {} "m1" 1700000000000 (List.replicate 12 '0')
        "2026-01-01T00:00:00.000Z" [dupRow] =
      (.error "UNIQUE constraint failed: events.event_id", [dupRow]) :=
  writeEvent_duplicate_id_fails "metric" (.obj .nil) {} "m1" 1700000000000
    (List.replicate 12 '0') "2026-01-01T00:00:00.000Z" [dupRow]
    ⟨dupRow, by simp, rfl⟩

/-- C8 (confirmed): once a first `Observability` instance exists in the
module-level cell, every later `initializeObservability` call returns that
same instance with the cell untouched, and its `dataDir` argument is
ignored — the store stays bound to the directory of the first construction;
`getObservability` with an empty cell constructs the instance against the
default directory `"data"`. -/
theorem observability_singleton (deps : EnvDeps) (d d' : String)
    (cell : Option Observability) (inst : Observability) (h : cell = some inst) :
    initializeObservability d deps cell = (inst, cell) ∧
    initializeObservability d deps cell = initializeObservability d' deps cell ∧
    getObservability deps none =
      (Observability.construct deps "data", some (Observability.construct deps "data")) ∧
    (Observability.construct deps "data").dataDir = deps.resolve "data" := by
  subst h
  exact ⟨rfl, rfl, rfl, rfl⟩

/-- Concrete ambient dependencies for the singleton witness. -/
def sampleDeps : EnvDeps where
  resolve := fun s => "/root/" ++ s
  joinPath := fun a b => a ++ "/" ++ b
  envMachineId := none
  machineIdFileContent := none
  randomStr := "abc123"
  existingDb := []

/-- C8 witness: the singleton theorem at a cell already holding the instance
constructed against `"dir1"`, later called with `"dir2"`/`"dir3"`. -/
theorem observability_singleton_witness :
    initializeObservability "dir2" sampleDeps
        (some (Observability.construct sampleDeps "dir1")) =
      (Observability.construct sampleDeps "dir1",
       some (Observability.construct sampleDeps "dir1")) ∧
    initializeObservability "dir2" sampleDeps
        (some (Observability.construct sampleDeps "dir1")) =
      initializeObservability "dir3" sampleDeps
        (some (Observability.construct sampleDeps "dir1")) ∧
    getObservability sampleDeps none =
      (Observability.construct sampleDeps "data",
       some (Observability.construct sampleDeps "data")) ∧
    (Observability.construct sampleDeps "data").dataDir = sampleDeps.resolve "data" :=
  observability_singleton sampleDeps "dir2" "dir3"
    (some (Observability.construct sampleDeps "dir1"))
    (Observability.construct sampleDeps "dir1") rfl

end Constellation
